import Mathlib

/-!
Shallow embedding of the message-relay core of `icon-ibriz/centralized-relay`
(wasm provider listener, event decoder, transaction submission engine, tx
result waiters, and the EVM submission path), with theorems settling the
specification claims about them.

Go sources embedded: `relayer/chains/wasm/provider.go`,
`relayer/chains/wasm` event parsing (`ParseMessageFromEvents`), and
`relayer/chains/evm/route.go`.
-/

/-- Equality of `Except` results is decidable when both component types
have decidable equality (used to evaluate embedded functions on concrete
inputs). -/
instance {ε α : Type} [DecidableEq ε] [DecidableEq α] : DecidableEq (Except ε α)
  | .ok a, .ok b =>
    if h : a = b then .isTrue (by rw [h])
    else .isFalse (by intro hh; cases hh; exact h rfl)
  | .error a, .error b =>
    if h : a = b then .isTrue (by rw [h])
    else .isFalse (by intro hh; cases hh; exact h rfl)
  | .ok _, .error _ => .isFalse (by intro hh; cases hh)
  | .error _, .ok _ => .isFalse (by intro hh; cases hh)

namespace Relay

/-- The normalized message envelope `relayer/types.Message` (the fields the
embedded code touches). `data` is the payload byte string, modelled as a list
of byte values. -/
structure Message where
  src : String := ""
  dst : String := ""
  sn : Nat := 0
  reqID : Nat := 0
  eventType : String := ""
  data : List Nat := []
  messageHeight : Nat := 0
deriving Repr, DecidableEq

/-- A decoded chain event attribute (`wasm.Attribute`). -/
structure Attribute where
  key : String
  value : String
deriving Repr, DecidableEq

/-- A decoded chain event (`wasm.Event`): a type tag plus key/value attributes. -/
structure Event where
  type : String
  attributes : List Attribute
deriving Repr, DecidableEq

/-- `BlockInfo`: all relay-relevant messages decoded for one height tag. -/
structure BlockInfo where
  height : Nat
  messages : List Message
deriving Repr, DecidableEq

/-- The wasm `ProviderConfig` fields the embedded code reads: network id,
the two contract addresses, the configured start height and the gas bounds. -/
structure ProviderConfig where
  nid : String := ""
  xcallContract : String := ""
  connectionContract : String := ""
  startHeight : Nat := 0
  minGasAmount : Nat := 0
  maxGasAmount : Nat := 0
deriving Repr, DecidableEq

/-- Event type tag recognized by the wasm decoder (`EventTypeWasmMessage`). -/
def EventTypeWasmMessage : String := "wasm-Message"

/-- Modelled from the spec: the event-kind constants of the
`relayer/events` package are not among the provided sources; the spec (§3)
names the kinds `CallMessage`, `EmitMessage`, `RevertMessage`, `SetAdmin`,
`SetFee`, `ClaimFee`, `ExecuteRollback`. Only their identity and mutual
distinctness matter to the embedded code. -/
def eventsCallMessage : String := "CallMessage"

/-- Modelled from the spec: see `eventsCallMessage`. -/
def eventsEmitMessage : String := "EmitMessage"

/-- Hex digit value of a character; the spec (§6) fixes attribute payloads as
lowercase hex. -/
def hexDigitVal? (c : Char) : Option Nat :=
  if '0' ≤ c ∧ c ≤ '9' then some (c.toNat - 48)
  else if 'a' ≤ c ∧ c ≤ 'f' then some (c.toNat - 87)
  else none

/-- Decode a list of hex characters pairwise into bytes; fails on an odd
length or a non-hex character (never truncates). -/
def hexBytes? : List Char → Option (List Nat)
  | [] => some []
  | [_] => none
  | a :: b :: rest =>
    match hexDigitVal? a, hexDigitVal? b, hexBytes? rest with
    | some hi, some lo, some tail => some ((16 * hi + lo) :: tail)
    | _, _, _ => none

/-- Strip a leading "0x" from the character list if present. -/
def strip0x : List Char → List Char
  | '0' :: 'x' :: rest => rest
  | cs => cs

/-- Modelled from the spec: `utils/hexstr.NewFromString(..).ToByte()` is not
among the provided sources. The spec (§6, §4.3) says `msg`/`data` attribute
values are lowercase hex with an optional `0x` prefix, hex-decoded to bytes,
and that decoding must fail rather than silently truncate. -/
def hexDecode (s : String) : Option (List Nat) :=
  hexBytes? (strip0x s.data)

/-- Decimal digit value of a character. -/
def decDigitVal? (c : Char) : Option Nat :=
  if '0' ≤ c ∧ c ≤ '9' then some (c.toNat - 48) else none

/-- Left-to-right accumulation of decimal digits; fails on a non-digit. -/
def decValueAux : Nat → List Char → Option Nat
  | acc, [] => some acc
  | acc, c :: rest =>
    match decDigitVal? c with
    | some d => decValueAux (acc * 10 + d) rest
    | none => none

/-- `strconv.ParseUint(s, 10, 64)`: a nonempty all-digit decimal string whose
value fits in 64 bits (`strconv.IntSize` is 64 on the targeted platforms);
anything else is a parse error. -/
def parseUint64? (s : String) : Option Nat :=
  match s.data with
  | [] => none
  | c :: rest =>
    match decValueAux 0 (c :: rest) with
    | some v => if v < 2 ^ 64 then some v else none
    | none => none

/-- One step of the attribute switch inside `ParseMessageFromEvents`
(provider event parsing): dispatch on the attribute key, mutating the message
under construction; `msg`/`data` hex-decode into `data`, `connSn`/`reqId`
parse as unsigned decimals, `_contract_address` selects the event kind via
the configured contract addresses, unknown keys leave the message unchanged. -/
def applyAttr (cfg : ProviderConfig) (msg : Message) (attr : Attribute) :
    Except String Message :=
  if attr.key = "_contract_address" then
    if attr.value = cfg.xcallContract then
      .ok { msg with eventType := eventsCallMessage, dst := cfg.nid }
    else if attr.value = cfg.connectionContract then
      .ok { msg with eventType := eventsEmitMessage, src := cfg.nid }
    else .ok msg
  else if attr.key = "msg" ∨ attr.key = "data" then
    match hexDecode attr.value with
    | some bytes => .ok { msg with data := bytes }
    | none => .error "failed to parse msg data from event"
  else if attr.key = "connSn" then
    match parseUint64? attr.value with
    | some sn => .ok { msg with sn := sn }
    | none => .error "failed to parse connSn from event"
  else if attr.key = "targetNetwork" then
    .ok { msg with dst := attr.value }
  else if attr.key = "reqId" then
    match parseUint64? attr.value with
    | some reqID => .ok { msg with reqID := reqID }
    | none => .error "failed to parse reqId from event"
  else if attr.key = "from" then
    .ok { msg with src := attr.value }
  else .ok msg

/-- Fold the attribute switch over a list of attributes, mutating the
message under construction; the first failing attribute aborts. -/
def parseAttrs (cfg : ProviderConfig) : Message → List Attribute → Except String Message
  | m, [] => .ok m
  | m, a :: as =>
    match applyAttr cfg m a with
    | .error e => .error e
    | .ok m2 => parseAttrs cfg m2 as

/-- Decode one `wasm-Message` event: fold the attribute switch over its
attributes starting from the zero-valued message (`new(Message)`). -/
def parseWasmEvent (cfg : ProviderConfig) (ev : Event) : Except String Message :=
  parseAttrs cfg {} ev.attributes

/-- `ParseMessageFromEvents`: walk the event list; events whose type is not
`wasm-Message` are skipped; each `wasm-Message` event contributes one decoded
message; the first attribute parse failure aborts the whole list with an
error. -/
def ParseMessageFromEvents (cfg : ProviderConfig) :
    List Event → Except String (List Message)
  | [] => .ok []
  | ev :: rest =>
    if ev.type = EventTypeWasmMessage then
      match parseWasmEvent cfg ev with
      | .error e => .error e
      | .ok msg =>
        match ParseMessageFromEvents cfg rest with
        | .error e => .error e
        | .ok msgs => .ok (msg :: msgs)
    else ParseMessageFromEvents cfg rest

/-- `getStartHeight`: select the height the listener starts from. The
configured start height wins when positive and below the latest height; then
a saved cursor above the latest height is rejected; then a positive saved
cursor below the latest height is used; otherwise the latest height. -/
def getStartHeight (cfg : ProviderConfig) (latestHeight lastSavedHeight : Nat) :
    Except String Nat :=
  if cfg.startHeight > 0 ∧ cfg.startHeight < latestHeight then
    .ok cfg.startHeight
  else if lastSavedHeight > latestHeight then
    .error "last saved height cannot be greater than latest height"
  else if lastSavedHeight ≠ 0 ∧ lastSavedHeight < latestHeight then
    .ok lastSavedHeight
  else .ok latestHeight

/-- `getHeightStream`: the height-range producer of the block-query pipeline.
While `fromHeight < toHeight` it emits the sub-range
`HeightRange{Start := fromHeight, End := fromHeight + 2}` and advances
`fromHeight` by 2; the resulting list is the sequence of ranges sent on the
height channel. -/
def getHeightStream (fromHeight toHeight : Nat) : List (Nat × Nat) :=
  if fromHeight < toHeight then
    (fromHeight, fromHeight + 2) :: getHeightStream (fromHeight + 2) toHeight
  else []
termination_by toHeight - fromHeight
decreasing_by omega

/-- A `tx_search` over a `HeightRange` is inclusive on both ends: the
messages a worker fetches for range `r` are all matching messages at heights
`r.1 .. r.2` (`msgsAt` abstracts the chain's matching messages per height). -/
def msgsInRange (msgsAt : Nat → List Message) (r : Nat × Nat) : List Message :=
  (List.range (r.2 + 1 - r.1)).flatMap (fun i => msgsAt (r.1 + i))

/-- `runBlockQuery`: each worker pulls a range from the height stream,
fetches that range's messages, and emits one `BlockInfo` tagged with the
range's end height and carrying every message of the whole range. The list
below is the multiset of `BlockInfo`s sent to the output channel. -/
def runBlockQuery (msgsAt : Nat → List Message) (fromHeight toHeight : Nat) :
    List BlockInfo :=
  (getHeightStream fromHeight toHeight).map
    (fun r => { height := r.2, messages := msgsInRange msgsAt r })

/-- The heights of the `BlockInfo`s the catch-up path emits for one
`runBlockQuery(fromHeight, toHeight)` invocation. -/
def catchupEmittedHeights (fromHeight toHeight : Nat) : List Nat :=
  (getHeightStream fromHeight toHeight).map (fun r => r.2)

/-- The `Height` field of the `SubscribeOpts` the `Listener` passes to
`SubscribeMessageEvents`: the latest height captured at listener entry
(`Height: latestHeight`). -/
def listenerSubscribeOptsHeight (latestHeight : Nat) : Nat := latestHeight

/-- The subscription query built by `SubscribeMessageEvents` is
`tm.event = 'Tx' AND tx.height >= opts.Height AND <address filter>`; a height
`h` passes the height filter exactly when `opts.Height ≤ h`. -/
def subscriptionQueryAdmits (optsHeight h : Nat) : Bool :=
  decide (optsHeight ≤ h)

/-- Whether the character list `sub` is a prefix of `s` (character-exact). -/
def charsHaveLead : List Char → List Char → Bool
  | [], _ => true
  | _ :: _, [] => false
  | a :: as, b :: bs => a = b && charsHaveLead as bs

/-- Whether `sub` occurs contiguously inside `s` (`strings.Contains`). -/
def containsSub : List Char → List Char → Bool
  | s, sub =>
    match s with
    | [] => sub.isEmpty
    | _ :: rest => charsHaveLead sub s || containsSub rest sub

/-- `strings.Contains(s, sub)`. -/
def strContains (s sub : String) : Bool := containsSub s.data sub.data

/-- Modelled from the spec: the cosmos-sdk error `errors.ErrWrongSequence`
(an external collaborator, not in the provided sources); its message is the
chain-family's "wrong sequence" marker the engine looks for in broadcast
errors (§4.4, §6 `SequenceMismatch`). -/
def errWrongSequence : String := "incorrect account sequence"

/-- Wallet account state the wasm submission engine tracks:
`(account_number, sequence)`. -/
structure Wallet where
  accountNumber : Nat
  sequence : Nat
deriving Repr, DecidableEq

/-- A chain transaction response (the fields of `relayer/types.TxResponse`
and `sdk.TxResponse` the embedded code reads or fills). -/
structure TxResponse where
  height : Int := 0
  txHash : String := ""
  codespace : String := ""
  code : Nat := 0
  data : String := ""
  rawLog : String := ""
deriving Repr, DecidableEq

/-- `handleSequence`: read the account info from the chain and store the
chain-reported sequence into the wallet (`wallet.SetSequence(acc.GetSequence())`);
the cached account number is not touched. -/
def handleSequence (w chainAcc : Wallet) : Wallet :=
  { w with sequence := chainAcc.sequence }

/-- Outcome of one `call` invocation: the returned result, the wallet state
afterwards, and how many broadcast attempts (`sendMessage` calls) were made. -/
structure CallOutcome where
  result : Except String TxResponse
  wallet : Wallet
  broadcasts : Nat
deriving Repr, DecidableEq

/-- `call`: broadcast via `sendMessage` (a function of the wallet's
account/sequence pair, abstracted as `send`); if the broadcast error contains
the wrong-sequence marker, refresh the sequence through `handleSequence`
(using `getAccountInfo`, the chain's account record) and retry exactly once;
any other error propagates unchanged. -/
def call (send : Wallet → Except String TxResponse)
    (getAccountInfo : Except String Wallet) (w : Wallet) : CallOutcome :=
  match send w with
  | .ok res => { result := .ok res, wallet := w, broadcasts := 1 }
  | .error e =>
    if strContains e errWrongSequence then
      match getAccountInfo with
      | .error mmErr =>
        { result := .error ("failed to handle sequence mismatch error: "
            ++ mmErr ++ " || " ++ e),
          wallet := w, broadcasts := 1 }
      | .ok acc =>
        let w2 := handleSequence w acc
        { result := send w2, wallet := w2, broadcasts := 2 }
    else { result := .error e, wallet := w, broadcasts := 1 }

/-- The chain's OK response code (`types.CodeTypeOK`, the ABCI OK code). -/
def CodeTypeOK : Nat := 0

/-- The distinct failure sites of `prepareAndPushTxToMemPool`, one
constructor per `return nil, err` site. -/
inductive WasmTxError where
  | buildFactoryFailed
  | estimateFailed
  | gasTooLow (gas min : Nat)
  | gasTooHigh (gas max : Nat)
  | prepareFailed
  | broadcastFailed (msg : String)
deriving Repr, DecidableEq

/-- Outcome of `prepareAndPushTxToMemPool`: the returned value and whether
`BroadcastTx` was reached. -/
structure PushOutcome where
  result : Except WasmTxError TxResponse
  broadcastAttempted : Bool
deriving Repr, DecidableEq

/-- The gas-setting step of `prepareAndPushTxToMemPool`: when the factory
simulates (`txf.SimulateAndExecute()`), the adjusted estimate from
`EstimateGas` becomes the factory's gas (an estimation failure aborts);
otherwise the factory's existing gas is kept. -/
def gasStepResult (simulateAndExecute : Bool) (estimateGas : Except Unit Nat)
    (txfDefaultGas : Nat) : Except WasmTxError Nat :=
  if simulateAndExecute then
    match estimateGas with
    | .error _ => .error .estimateFailed
    | .ok adjusted => .ok adjusted
  else .ok txfDefaultGas

/-- `prepareAndPushTxToMemPool`: build the tx factory (gas prices,
adjustment, account, sequence); set the gas via `gasStepResult`; reject with
a gas bounds error when the gas is strictly below `MinGasAmount` or strictly
above `MaxGasAmount`; otherwise prepare and broadcast, failing on a
broadcast error or a non-OK broadcast code. The chain interactions are
abstracted as the `estimateGas`, `prepareTx` and `broadcastTx` oracles. -/
def prepareAndPushTxToMemPool (cfg : ProviderConfig) (simulateAndExecute : Bool)
    (estimateGas : Except Unit Nat) (txfDefaultGas : Nat)
    (prepareTx : Except Unit (List Nat))
    (broadcastTx : List Nat → Except Unit TxResponse) : PushOutcome :=
  match gasStepResult simulateAndExecute estimateGas txfDefaultGas with
  | .error e => { result := .error e, broadcastAttempted := false }
  | .ok gas =>
    if gas < cfg.minGasAmount then
      { result := .error (.gasTooLow gas cfg.minGasAmount),
        broadcastAttempted := false }
    else if gas > cfg.maxGasAmount then
      { result := .error (.gasTooHigh gas cfg.maxGasAmount),
        broadcastAttempted := false }
    else
      match prepareTx with
      | .error _ => { result := .error .prepareFailed, broadcastAttempted := false }
      | .ok txBytes =>
        match broadcastTx txBytes with
        | .error _ =>
          { result := .error (.broadcastFailed "failed to send tx"),
            broadcastAttempted := true }
        | .ok res =>
          if res.code ≠ CodeTypeOK then
            { result := .error (.broadcastFailed res.rawLog),
              broadcastAttempted := true }
          else { result := .ok res, broadcastAttempted := true }

/-- Whether a wasm submission result is one of the two gas-bounds
rejections. -/
def isWasmGasBoundsError : Except WasmTxError TxResponse → Bool
  | .error (.gasTooLow _ _) => true
  | .error (.gasTooHigh _ _) => true
  | _ => false

/-- The EVM provider config fields `SendTransaction` reads. -/
structure EvmConfig where
  gasMin : Nat := 0
  gasLimit : Nat := 0
  gasAdjustment : Nat := 0
deriving Repr, DecidableEq

/-- The distinct failure sites of the EVM `SendTransaction`. -/
inductive EvmTxError where
  | estimateFailed
  | gasLimitExceeded (gas : Nat)
  | gasLessThanMin (gas : Nat)
  | unknownEventType (t : String)
deriving Repr, DecidableEq

/-- The contract call the EVM engine hands to its bound client: the selected
method and the adjusted gas limit placed in the transact opts. Reaching such
a call is the broadcast. -/
structure EvmContractCall where
  method : String
  gasLimit : Nat
deriving Repr, DecidableEq

/-- EVM `SendTransaction`: estimate gas for the message; reject when the
estimate is strictly above `cfg.GasLimit` or strictly below `cfg.GasMin`;
otherwise set `opts.GasLimit = gasLimit + gasLimit*GasAdjustment/100` and
dispatch on the event type to the matching contract method; an unknown event
type is an error. -/
def SendTransaction (cfg : EvmConfig) (estimateGas : Except Unit Nat)
    (message : Message) : Except EvmTxError EvmContractCall :=
  match estimateGas with
  | .error _ => .error .estimateFailed
  | .ok gasLimit =>
    if gasLimit > cfg.gasLimit then .error (.gasLimitExceeded gasLimit)
    else if gasLimit < cfg.gasMin then .error (.gasLessThanMin gasLimit)
    else
      let adjusted := gasLimit + gasLimit * cfg.gasAdjustment / 100
      if message.eventType = eventsEmitMessage then
        .ok { method := "ReceiveMessage", gasLimit := adjusted }
      else if message.eventType = eventsCallMessage then
        .ok { method := "ExecuteCall", gasLimit := adjusted }
      else if message.eventType = "SetAdmin" then
        .ok { method := "SetAdmin", gasLimit := adjusted }
      else if message.eventType = "RevertMessage" then
        .ok { method := "RevertMessage", gasLimit := adjusted }
      else if message.eventType = "ClaimFee" then
        .ok { method := "ClaimFee", gasLimit := adjusted }
      else if message.eventType = "SetFee" then
        .ok { method := "SetFee", gasLimit := adjusted }
      else if message.eventType = "ExecuteRollback" then
        .ok { method := "ExecuteRollback", gasLimit := adjusted }
      else .error (.unknownEventType message.eventType)

/-- Whether an EVM submission result is one of the two gas-bounds
rejections. -/
def isEvmGasBoundsError : Except EvmTxError EvmContractCall → Bool
  | .error (.gasLimitExceeded _) => true
  | .error (.gasLessThanMin _) => true
  | _ => false

/-- One element sent on a tx-result waiter channel
(`types.TxResultChan{TxResult, Error}`). -/
structure TxResultChan where
  txResult : Option TxResponse
  error : Option String
deriving Repr, DecidableEq

/-- What the subscription-based waiter observes before it terminates: the
subscription fails to open, the received event fails to re-marshal or
unmarshal, a tx event with a chain-reported result arrives, or the context
is cancelled first. -/
inductive SubObservation where
  | subscribeFailed (err : String)
  | marshalFailed (err : String)
  | unmarshalFailed (err : String)
  | txEvent (height : Int) (code : Nat) (codespace : String) (log : String)
      (data : String)
  | ctxDone
deriving Repr, DecidableEq

/-- `subscribeTxResultStream`: the list of values sent on the result channel
before it is closed, for each possible observation. A tx event with OK code
yields one success response carrying the inclusion height; a non-OK code
yields one failure whose error is the chain-reported log alongside the
response carrying the failing code; each setup failure yields one error;
context cancellation closes the channel without a message. -/
def subscribeTxResultStream (txHash : String) (obs : SubObservation) :
    List TxResultChan :=
  match obs with
  | .subscribeFailed e => [{ txResult := some { txHash := txHash }, error := some e }]
  | .marshalFailed e => [{ txResult := some { txHash := txHash }, error := some e }]
  | .unmarshalFailed e => [{ txResult := some { txHash := txHash }, error := some e }]
  | .ctxDone => []
  | .txEvent h code cs log data =>
    let res : TxResponse :=
      { height := h, txHash := txHash, codespace := cs, code := code, data := data }
    if code ≠ CodeTypeOK then
      [{ txResult := some res, error := some log }]
    else
      [{ txResult := some res, error := none }]

/-- `pollTxResultStream`: on each tick query the receipt; on success send one
success message and stop; on a query error after the elapsed time exceeds the
maximum wait, send that error and stop; otherwise keep ticking. The input is
the sequence of (receipt query result, elapsed time at that tick) pairs; the
output is the list of values sent on the channel. -/
def pollTxResultStream (maxWait : Nat) :
    List (Except String TxResponse × Nat) → List TxResultChan
  | [] => []
  | (att, elapsed) :: rest =>
    match att with
    | .ok res => [{ txResult := some res, error := none }]
    | .error e =>
      if elapsed > maxWait then [{ txResult := none, error := some e }]
      else pollTxResultStream maxWait rest

/-- A poll tick is terminal when the receipt query succeeded or the elapsed
time exceeds the maximum wait. -/
def pollTerminal (maxWait : Nat) (tick : Except String TxResponse × Nat) : Prop :=
  (∃ res, tick.1 = .ok res) ∨ tick.2 > maxWait

instance (maxWait : Nat) (tick : Except String TxResponse × Nat) :
    Decidable (pollTerminal maxWait tick) := by
  unfold pollTerminal
  rcases tick with ⟨att, elapsed⟩
  cases att with
  | ok r => exact .isTrue (Or.inl ⟨r, rfl⟩)
  | error e =>
    by_cases h : elapsed > maxWait
    · exact .isTrue (Or.inr h)
    · exact .isFalse (by
        rintro (⟨r, hr⟩ | he)
        · exact Except.noConfusion hr
        · exact h he)

/-- An attribute value the decoder cannot parse: a `msg`/`data` value that is
not valid hex, or a `connSn`/`reqId` value that is not a valid unsigned
decimal. -/
def badAttribute (attr : Attribute) : Prop :=
  ((attr.key = "msg" ∨ attr.key = "data") ∧ hexDecode attr.value = none)
    ∨ ((attr.key = "connSn" ∨ attr.key = "reqId") ∧ parseUint64? attr.value = none)

instance (attr : Attribute) : Decidable (badAttribute attr) := by
  unfold badAttribute; infer_instance

/-! ## Theorems settling the claims -/

/-- C1, counterexample: the claim requires the listener to fail with
`InvalidCursor` whenever `last_saved_height > latest_height`, but when the
configured start height is positive and below the latest height the
configured branch wins first: with configured start 5, latest height 10 and
saved cursor 20 (which exceeds the latest height), `getStartHeight` returns
5 instead of failing. -/
theorem getStartHeight_config_branch_precedes_cursor_check :
    getStartHeight { startHeight := 5 } 10 20 = .ok 5
      ∧ ∀ e, getStartHeight { startHeight := 5 } 10 20 ≠ .error e := by
  refine ⟨by decide, ?_⟩
  intro e h
  have : Except.ok 5 = Except.error e := by
    have hv : getStartHeight { startHeight := 5 } 10 20 = .ok 5 := by decide
    rw [← hv, h]
  exact Except.noConfusion this

/-- C1, amended: the start-height selection policy with the cursor check
placed after the configured-start branch. If the configured start height is
positive and below the latest height it is returned (even when the saved
cursor exceeds the latest height); otherwise a saved cursor above the latest
height fails with the invalid-cursor error; otherwise a positive saved cursor
below the latest height is returned; otherwise the latest height is
returned. -/
theorem getStartHeight_selection_policy (cfg : ProviderConfig)
    (latestHeight lastSavedHeight : Nat) :
    (cfg.startHeight > 0 ∧ cfg.startHeight < latestHeight →
        getStartHeight cfg latestHeight lastSavedHeight = .ok cfg.startHeight)
    ∧ (¬(cfg.startHeight > 0 ∧ cfg.startHeight < latestHeight) →
        lastSavedHeight > latestHeight →
        getStartHeight cfg latestHeight lastSavedHeight =
          .error "last saved height cannot be greater than latest height")
    ∧ (¬(cfg.startHeight > 0 ∧ cfg.startHeight < latestHeight) →
        lastSavedHeight ≤ latestHeight →
        lastSavedHeight > 0 → lastSavedHeight < latestHeight →
        getStartHeight cfg latestHeight lastSavedHeight = .ok lastSavedHeight)
    ∧ (¬(cfg.startHeight > 0 ∧ cfg.startHeight < latestHeight) →
        lastSavedHeight ≤ latestHeight →
        ¬(lastSavedHeight > 0 ∧ lastSavedHeight < latestHeight) →
        getStartHeight cfg latestHeight lastSavedHeight = .ok latestHeight) := by
  unfold getStartHeight
  refine ⟨fun h => by rw [if_pos h], fun h1 h2 => ?_, fun h1 h2 h3 h4 => ?_,
    fun h1 h2 h3 => ?_⟩
  · rw [if_neg h1, if_pos h2]
  · rw [if_neg h1, if_neg (by omega), if_pos (by omega)]
  · rw [if_neg h1, if_neg (by omega), if_neg (by omega)]

/-- C1, witness for the amended policy at a concrete input: no configured
start, latest height 10, saved cursor 4 → start from the saved cursor. -/
theorem getStartHeight_selection_policy_witness :
    getStartHeight { startHeight := 0 } 10 4 = .ok 4 :=
  (getStartHeight_selection_policy { startHeight := 0 } 10 4).2.2.1
    (by decide) (by decide) (by decide) (by decide)

/-- C2: the two literal decoder scenarios. A `wasm-Message` event whose
`_contract_address` is the configured connection contract with
`msg=0x0102`, `connSn=7`, `targetNetwork=chainB` decodes (under NID `chainA`)
to exactly one EmitMessage with `src=chainA`, `dst=chainB`, `sn=7`,
`data=[0x01,0x02]`; one whose `_contract_address` is the configured xcall
contract with `data=0xaa`, `reqId=42`, `from=chainX` decodes to exactly one
CallMessage with `src=chainX`, `dst=chainA` (the NID), `req_id=42`,
`data=[0xaa]`. -/
theorem ParseMessageFromEvents_literal_scenarios :
    ParseMessageFromEvents
        { nid := "chainA", xcallContract := "xcall_addr",
          connectionContract := "conn_addr" }
        [{ type := "wasm-Message", attributes := [
            ⟨"_contract_address", "conn_addr"⟩, ⟨"msg", "0x0102"⟩,
            ⟨"connSn", "7"⟩, ⟨"targetNetwork", "chainB"⟩] }] =
      .ok [{ src := "chainA", dst := "chainB", sn := 7,
             eventType := eventsEmitMessage, data := [1, 2] }]
    ∧ ParseMessageFromEvents
        { nid := "chainA", xcallContract := "xcall_addr",
          connectionContract := "conn_addr" }
        [{ type := "wasm-Message", attributes := [
            ⟨"_contract_address", "xcall_addr"⟩, ⟨"data", "0xaa"⟩,
            ⟨"reqId", "42"⟩, ⟨"from", "chainX"⟩] }] =
      .ok [{ src := "chainX", dst := "chainA", reqID := 42,
             eventType := eventsCallMessage, data := [170] }] := by
  constructor <;> decide

/-- C9: the decoder is deterministic — for a fixed provider configuration,
identical event lists decode to identical results. -/
theorem ParseMessageFromEvents_deterministic (cfg : ProviderConfig)
    (evs evs' : List Event) (h : evs = evs') :
    ParseMessageFromEvents cfg evs = ParseMessageFromEvents cfg evs' := by
  rw [h]

/-- C9, witness: determinism applied at a concrete configuration and event
list. -/
theorem ParseMessageFromEvents_deterministic_witness :
    ParseMessageFromEvents { nid := "chainA" }
        [{ type := "wasm-Message", attributes := [⟨"connSn", "3"⟩] }] =
      ParseMessageFromEvents { nid := "chainA" }
        [{ type := "wasm-Message", attributes := [⟨"connSn", "3"⟩] }] :=
  ParseMessageFromEvents_deterministic { nid := "chainA" } _ _ rfl

/-- An unparseable attribute makes the attribute switch fail, whatever the
message under construction is. -/
theorem applyAttr_bad_error (cfg : ProviderConfig) (attr : Attribute)
    (hbad : badAttribute attr) (m : Message) :
    ∃ e, applyAttr cfg m attr = .error e := by
  rcases attr with ⟨key, value⟩
  rcases hbad with ⟨hkey, hval⟩ | ⟨hkey, hval⟩ <;>
    rcases hkey with hk | hk <;> simp only at hk <;> subst hk
  · exact ⟨"failed to parse msg data from event", by simp [applyAttr, hval]⟩
  · exact ⟨"failed to parse msg data from event", by simp [applyAttr, hval]⟩
  · exact ⟨"failed to parse connSn from event", by simp [applyAttr, hval]⟩
  · exact ⟨"failed to parse reqId from event", by simp [applyAttr, hval]⟩

/-- An unparseable attribute anywhere in the list makes the attribute fold
fail. -/
theorem parseAttrs_bad_error (cfg : ProviderConfig) :
    ∀ (attrs : List Attribute) (m : Message), (∃ a ∈ attrs, badAttribute a) →
      ∃ e, parseAttrs cfg m attrs = .error e := by
  intro attrs
  induction attrs with
  | nil =>
    intro m h
    rcases h with ⟨a, ha, _⟩
    cases ha
  | cons a as ih =>
    intro m h
    rcases h with ⟨b, hb, hbad⟩
    cases hA : applyAttr cfg m a with
    | error e => exact ⟨e, by simp [parseAttrs, hA]⟩
    | ok m2 =>
      rcases List.mem_cons.mp hb with rfl | hbs
      · obtain ⟨e, he⟩ := applyAttr_bad_error cfg b hbad m
        rw [hA] at he
        cases he
      · obtain ⟨e, he⟩ := ih m2 ⟨b, hbs, hbad⟩
        exact ⟨e, by simp [parseAttrs, hA, he]⟩

/-- C7: decoder error handling. Events whose type is not `wasm-Message`
contribute nothing (the decode result of the list with such an event removed
is unchanged, hence no message and no error from it); and if any
`wasm-Message` event in the list carries an attribute whose value fails to
parse (`msg`/`data` not valid hex, `connSn`/`reqId` not a valid unsigned
decimal), the decoder returns an error for the whole event list — the
`Except.error` result carries no partial message list. -/
theorem ParseMessageFromEvents_error_handling (cfg : ProviderConfig) :
    (∀ ev rest, ev.type ≠ EventTypeWasmMessage →
        ParseMessageFromEvents cfg (ev :: rest) = ParseMessageFromEvents cfg rest)
    ∧ ∀ evs : List Event,
        (∃ ev ∈ evs, ev.type = EventTypeWasmMessage ∧ ∃ a ∈ ev.attributes, badAttribute a) →
        ∃ e, ParseMessageFromEvents cfg evs = .error e := by
  constructor
  · intro ev rest hne
    simp [ParseMessageFromEvents, hne]
  · intro evs
    induction evs with
    | nil =>
      intro h
      rcases h with ⟨ev, hmem, _⟩
      cases hmem
    | cons ev rest ih =>
      intro h
      rcases h with ⟨b, hb, htype, hbad⟩
      by_cases hev : ev.type = EventTypeWasmMessage
      · cases hpe : parseWasmEvent cfg ev with
        | error e => exact ⟨e, by simp [ParseMessageFromEvents, hev, hpe]⟩
        | ok m =>
          rcases List.mem_cons.mp hb with rfl | hbs
          · obtain ⟨e, he⟩ := parseAttrs_bad_error cfg b.attributes {} hbad
            rw [show parseAttrs cfg {} b.attributes = parseWasmEvent cfg b from rfl,
              hpe] at he
            cases he
          · obtain ⟨e, he⟩ := ih ⟨b, hbs, htype, hbad⟩
            exact ⟨e, by simp [ParseMessageFromEvents, hev, hpe, he]⟩
      · rcases List.mem_cons.mp hb with rfl | hbs
        · exact absurd htype hev
        · obtain ⟨e, he⟩ := ih ⟨b, hbs, htype, hbad⟩
          exact ⟨e, by simp [ParseMessageFromEvents, hev, he]⟩

/-- C7, witness: a `wasm-Message` event with the unparseable `connSn`
value `"x"` makes the whole decode fail. -/
theorem ParseMessageFromEvents_error_handling_witness :
    ∃ e, ParseMessageFromEvents { nid := "chainA" }
        [{ type := "wasm-Message", attributes := [⟨"connSn", "x"⟩] }] =
      .error e :=
  (ParseMessageFromEvents_error_handling { nid := "chainA" }).2
    [{ type := "wasm-Message", attributes := [⟨"connSn", "x"⟩] }]
    ⟨{ type := "wasm-Message", attributes := [⟨"connSn", "x"⟩] },
      by decide, by decide, ⟨"connSn", "x"⟩, by decide, by decide⟩

/-- The attribute switch leaves `event_kind` untouched unless the attribute
is a `_contract_address` matching one of the two configured contracts. -/
theorem applyAttr_eventType_unchanged (cfg : ProviderConfig) (m : Message)
    (attr : Attribute) (m2 : Message)
    (haddr : attr.key = "_contract_address" →
      attr.value ≠ cfg.xcallContract ∧ attr.value ≠ cfg.connectionContract)
    (hok : applyAttr cfg m attr = .ok m2) : m2.eventType = m.eventType := by
  simp only [applyAttr] at hok
  split_ifs at hok with h1 h2 h3 h4 h5 h6 h7 h8
  all_goals first
    | exact absurd h2 (haddr h1).1
    | exact absurd h3 (haddr h1).2
    | (cases hok; rfl)
    | (split at hok
       · cases hok; rfl
       · exact Except.noConfusion hok)

/-- The attribute fold leaves `event_kind` untouched when no
`_contract_address` attribute matches a configured contract. -/
theorem parseAttrs_eventType_unchanged (cfg : ProviderConfig) :
    ∀ (attrs : List Attribute) (m m2 : Message),
      (∀ a ∈ attrs, a.key = "_contract_address" →
        a.value ≠ cfg.xcallContract ∧ a.value ≠ cfg.connectionContract) →
      parseAttrs cfg m attrs = .ok m2 → m2.eventType = m.eventType := by
  intro attrs
  induction attrs with
  | nil =>
    intro m m2 _ hok
    cases hok
    rfl
  | cons a as ih =>
    intro m m2 haddr hok
    cases hA : applyAttr cfg m a with
    | error e =>
      rw [show parseAttrs cfg m (a :: as) =
        match applyAttr cfg m a with
        | .error e => .error e
        | .ok m2 => parseAttrs cfg m2 as from rfl, hA] at hok
      exact Except.noConfusion hok
    | ok mid =>
      rw [show parseAttrs cfg m (a :: as) =
        match applyAttr cfg m a with
        | .error e => .error e
        | .ok m2 => parseAttrs cfg m2 as from rfl, hA] at hok
      have h1 := ih mid m2 (fun b hb => haddr b (List.mem_cons_of_mem a hb)) hok
      have h2 := applyAttr_eventType_unchanged cfg m a mid
        (haddr a (List.mem_cons_self a as)) hA
      rw [h1, h2]

/-- C10: a `wasm-Message` event whose `_contract_address` matches neither
the configured xcall contract nor the configured connection contract is not
dropped: when its attributes parse, the decoder still prepends its decoded
message, and that message's `event_kind` stays empty (only the other parsed
attributes are populated). -/
theorem ParseMessageFromEvents_unmatched_contract (cfg : ProviderConfig)
    (ev : Event) (m : Message) (htype : ev.type = EventTypeWasmMessage)
    (haddr : ∀ a ∈ ev.attributes, a.key = "_contract_address" →
      a.value ≠ cfg.xcallContract ∧ a.value ≠ cfg.connectionContract)
    (hok : parseWasmEvent cfg ev = .ok m) :
    m.eventType = "" ∧ ∀ rest msgs, ParseMessageFromEvents cfg rest = .ok msgs →
      ParseMessageFromEvents cfg (ev :: rest) = .ok (m :: msgs) := by
  constructor
  · exact parseAttrs_eventType_unchanged cfg ev.attributes {} m haddr hok
  · intro rest msgs hrest
    simp [ParseMessageFromEvents, htype, hok, hrest]

/-- C10, witness: an event addressed to an unknown contract with `connSn=3`
still yields one message, with empty `event_kind` and `sn=3`. -/
theorem ParseMessageFromEvents_unmatched_contract_witness :
    ({ sn := 3 } : Message).eventType = ""
      ∧ ParseMessageFromEvents
          { nid := "chainA", xcallContract := "xc", connectionContract := "cc" }
          [{ type := "wasm-Message", attributes := [
              ⟨"_contract_address", "other"⟩, ⟨"connSn", "3"⟩] }] =
        .ok [{ sn := 3 }] := by
  have h := ParseMessageFromEvents_unmatched_contract
    { nid := "chainA", xcallContract := "xc", connectionContract := "cc" }
    { type := "wasm-Message", attributes := [
        ⟨"_contract_address", "other"⟩, ⟨"connSn", "3"⟩] }
    { sn := 3 } (by decide) (by decide) (by decide)
  exact ⟨h.1, h.2 [] [] (by decide)⟩

/-- Every height of the inclusive target interval is covered by at least one
sub-range produced by the height-range producer. -/
theorem getHeightStream_covers (fromHeight toHeight h : Nat)
    (hft : fromHeight < toHeight) (hfh : fromHeight ≤ h) (hht : h ≤ toHeight) :
    ∃ r ∈ getHeightStream fromHeight toHeight, r.1 ≤ h ∧ h ≤ r.2 := by
  rw [getHeightStream, if_pos hft]
  by_cases hc : h ≤ fromHeight + 2
  · exact ⟨(fromHeight, fromHeight + 2), List.mem_cons_self _ _, hfh, hc⟩
  · obtain ⟨r, hr, hcov⟩ := getHeightStream_covers (fromHeight + 2) toHeight h
      (by omega) (by omega) hht
    exact ⟨r, List.mem_cons_of_mem _ hr, hcov⟩
termination_by toHeight - fromHeight
decreasing_by omega

/-- C3, counterexample: for the range `[10, 14]` the producer emits the
sub-ranges `[10,12]` and `[12,14]`; the boundary height 12 lies in both
inclusive sub-ranges, so it is queried twice, and a matching message at
height 12 is carried by two emitted `BlockInfo`s (tagged 12 and 14) — not
exactly one. -/
theorem runBlockQuery_exactly_once_counterexample :
    getHeightStream 10 14 = [(10, 12), (12, 14)]
      ∧ (getHeightStream 10 14).countP (fun r => decide (r.1 ≤ 12 ∧ 12 ≤ r.2)) = 2
      ∧ (runBlockQuery (fun h => if h = 12 then [{ sn := 9 }] else []) 10 14).countP
          (fun bi => decide (({ sn := 9 } : Message) ∈ bi.messages)) = 2 := by
  have hs : getHeightStream 10 14 = [(10, 12), (12, 14)] := by
    rw [getHeightStream, if_pos (by omega), getHeightStream, if_pos (by omega),
      getHeightStream, if_neg (by omega)]
  refine ⟨hs, by rw [hs]; decide, ?_⟩
  rw [runBlockQuery, hs]
  decide

/-- C3, amended: at-least-once coverage. For every range `[from, to]` with
`from < to`, every matching message at a height of `[from, to]` appears in
at least one emitted `BlockInfo` (the one of a covering sub-range, tagged
with that sub-range's end height); boundary heights shared by two
consecutive sub-ranges are queried twice, so delivery is at least once, not
exactly once. -/
theorem runBlockQuery_at_least_once (msgsAt : Nat → List Message)
    (fromHeight toHeight h : Nat) (m : Message) (hft : fromHeight < toHeight)
    (hfh : fromHeight ≤ h) (hht : h ≤ toHeight) (hm : m ∈ msgsAt h) :
    ∃ bi ∈ runBlockQuery msgsAt fromHeight toHeight, m ∈ bi.messages := by
  obtain ⟨r, hr, h1, h2⟩ := getHeightStream_covers fromHeight toHeight h hft hfh hht
  refine ⟨{ height := r.2, messages := msgsInRange msgsAt r }, ?_, ?_⟩
  · rw [runBlockQuery]
    exact List.mem_map.mpr ⟨r, hr, rfl⟩
  · show m ∈ msgsInRange msgsAt r
    rw [msgsInRange]
    exact List.mem_flatMap.mpr
      ⟨h - r.1, List.mem_range.mpr (by omega),
        by rwa [show r.1 + (h - r.1) = h by omega]⟩

/-- C3, witness for the amended coverage: a message at height 11 of the
range `[10, 14]` appears in an emitted `BlockInfo`. -/
theorem runBlockQuery_at_least_once_witness :
    ∃ bi ∈ runBlockQuery (fun h => if h = 11 then [{ sn := 5 }] else []) 10 14,
      ({ sn := 5 } : Message) ∈ bi.messages :=
  runBlockQuery_at_least_once (fun h => if h = 11 then [{ sn := 5 }] else [])
    10 14 11 { sn := 5 } (by omega) (by omega) (by omega) (by decide)

/-- C4, counterexample: the `Listener` opens its realtime tail with
`opts.Height = latestHeight` (not `latestHeight + 1`), and the subscription
query admits every height `≥ opts.Height`. With `start = 10`,
`latest = 12`, catch-up emits a `BlockInfo` at height 12 and the tail's
filter admits height 12 as well, so the boundary height can be emitted by
both paths — the claim's disjointness fails. -/
theorem listener_tail_overlap_counterexample :
    listenerSubscribeOptsHeight 12 = 12
      ∧ catchupEmittedHeights 10 12 = [12]
      ∧ subscriptionQueryAdmits (listenerSubscribeOptsHeight 12) 12 = true := by
  have hs : getHeightStream 10 12 = [(10, 12)] := by
    rw [getHeightStream, if_pos (by omega), getHeightStream, if_neg (by omega)]
  refine ⟨rfl, ?_, by decide⟩
  rw [catchupEmittedHeights, hs]
  rfl

/-- The catch-up pipeline always emits a `BlockInfo` height at or beyond the
latest height it was asked to reach. -/
theorem catchupEmittedHeights_reaches (fromHeight toHeight : Nat)
    (hft : fromHeight < toHeight) :
    ∃ e ∈ catchupEmittedHeights fromHeight toHeight, toHeight ≤ e := by
  rw [catchupEmittedHeights, getHeightStream, if_pos hft, List.map_cons]
  by_cases hc : toHeight ≤ fromHeight + 2
  · exact ⟨fromHeight + 2, List.mem_cons_self _ _, hc⟩
  · obtain ⟨e, he, hte⟩ := catchupEmittedHeights_reaches (fromHeight + 2) toHeight
      (by omega)
    rw [catchupEmittedHeights] at he
    exact ⟨e, List.mem_cons_of_mem _ he, hte⟩
termination_by toHeight - fromHeight
decreasing_by omega

/-- C4, amended: the realtime tail filters events starting at
`latest_height` inclusive (the value captured at listener entry), i.e. its
filter admits exactly the heights `≥ latest_height`; and since the catch-up
pipeline always emits a height `≥ latest_height`, there is always a height
that both the catch-up path and the subscription filter can emit — the two
paths are not disjoint at the boundary. -/
theorem listener_subscription_overlap (startHeight latestHeight : Nat)
    (hlt : startHeight < latestHeight) :
    (∀ h, subscriptionQueryAdmits (listenerSubscribeOptsHeight latestHeight) h = true
        ↔ latestHeight ≤ h)
    ∧ ∃ e ∈ catchupEmittedHeights startHeight latestHeight,
        latestHeight ≤ e
          ∧ subscriptionQueryAdmits (listenerSubscribeOptsHeight latestHeight) e = true := by
  constructor
  · intro h
    simp [subscriptionQueryAdmits, listenerSubscribeOptsHeight]
  · obtain ⟨e, he, hte⟩ := catchupEmittedHeights_reaches startHeight latestHeight hlt
    refine ⟨e, he, hte, ?_⟩
    simp [subscriptionQueryAdmits, listenerSubscribeOptsHeight]
    omega

/-- C4, witness for the amended statement at `start = 10`, `latest = 12`. -/
theorem listener_subscription_overlap_witness :
    ∃ e ∈ catchupEmittedHeights 10 12,
      12 ≤ e ∧ subscriptionQueryAdmits (listenerSubscribeOptsHeight 12) e = true :=
  (listener_subscription_overlap 10 12 (by omega)).2

/-- C5: gas-bounds rejection in both submission engines. Wasm: once the gas
is set (the adjusted estimate when simulation is supported, the factory's
default otherwise), the result is a gas-bounds error exactly when the gas is
strictly below `MinGasAmount` or strictly above `MaxGasAmount`, and in that
case `BroadcastTx` is never reached. EVM: with a successful estimate, the
result is a gas-bounds error exactly when the estimate is strictly below
`GasMin` or strictly above `GasLimit`, and in that case no contract call (no
broadcast) is produced. -/
theorem gas_bounds_reject :
    (∀ (cfg : ProviderConfig) (sim : Bool) (est : Except Unit Nat)
        (txfDefaultGas : Nat) (prep : Except Unit (List Nat))
        (bc : List Nat → Except Unit TxResponse) (gas : Nat),
      (sim = true → est = .ok gas) → (sim = false → gas = txfDefaultGas) →
      (isWasmGasBoundsError
          (prepareAndPushTxToMemPool cfg sim est txfDefaultGas prep bc).result = true
        ↔ gas < cfg.minGasAmount ∨ gas > cfg.maxGasAmount)
      ∧ (gas < cfg.minGasAmount ∨ gas > cfg.maxGasAmount →
          (prepareAndPushTxToMemPool cfg sim est txfDefaultGas prep bc).broadcastAttempted
            = false))
    ∧ (∀ (cfg : EvmConfig) (gasEstimate : Nat) (message : Message),
      (isEvmGasBoundsError (SendTransaction cfg (.ok gasEstimate) message) = true
        ↔ gasEstimate < cfg.gasMin ∨ gasEstimate > cfg.gasLimit)
      ∧ (gasEstimate < cfg.gasMin ∨ gasEstimate > cfg.gasLimit →
          ∀ c, SendTransaction cfg (.ok gasEstimate) message ≠ .ok c)) := by
  constructor
  · intro cfg sim est txfDefaultGas prep bc gas h1 h2
    have hgas : gasStepResult sim est txfDefaultGas = .ok gas := by
      cases sim
      · rw [h2 rfl]
        simp [gasStepResult]
      · rw [gasStepResult.eq_def, if_pos rfl, h1 rfl]
    unfold prepareAndPushTxToMemPool
    rw [hgas]
    constructor
    · by_cases hlo : gas < cfg.minGasAmount
      · simp [hlo, isWasmGasBoundsError]
      · by_cases hhi : gas > cfg.maxGasAmount
        · simp [hlo, hhi, isWasmGasBoundsError]
        · simp only [if_neg hlo, if_neg hhi]
          rcases prep with e | tx
          · simp [isWasmGasBoundsError, hlo, hhi]
          · cases hbc : bc tx with
            | error e => simp [hbc, isWasmGasBoundsError, hlo, hhi]
            | ok res =>
              by_cases hc : res.code ≠ CodeTypeOK
              · simp [hbc, hc, isWasmGasBoundsError, hlo, hhi]
              · simp [hbc, hc, isWasmGasBoundsError, hlo, hhi]
    · intro hbd
      rcases hbd with hlo | hhi
      · simp [hlo]
      · by_cases hlo : gas < cfg.minGasAmount
        · simp [hlo]
        · simp [hlo, hhi]
  · intro cfg g m
    constructor
    · unfold SendTransaction
      by_cases hhi : g > cfg.gasLimit
      · simp [hhi, isEvmGasBoundsError]
      · by_cases hlo : g < cfg.gasMin
        · simp [hhi, hlo, isEvmGasBoundsError]
        · simp only [if_neg hhi, if_neg hlo]
          split_ifs <;> simp [isEvmGasBoundsError, hhi, hlo]
    · intro hbd c
      unfold SendTransaction
      rcases hbd with hlo | hhi
      · by_cases hhi : g > cfg.gasLimit <;> simp [hhi, hlo]
      · simp [hhi]

/-- C5, witness: with simulation supported, an adjusted estimate of 5
against bounds `[10, 100]` is rejected as a gas-bounds error and nothing is
broadcast. -/
theorem gas_bounds_reject_witness :
    isWasmGasBoundsError
        (prepareAndPushTxToMemPool { minGasAmount := 10, maxGasAmount := 100 }
          true (.ok 5) 0 (.ok []) (fun _ => .error ())).result = true
      ∧ (prepareAndPushTxToMemPool { minGasAmount := 10, maxGasAmount := 100 }
          true (.ok 5) 0 (.ok []) (fun _ => .error ())).broadcastAttempted = false := by
  have h := gas_bounds_reject.1 { minGasAmount := 10, maxGasAmount := 100 }
    true (.ok 5) 0 (.ok []) (fun _ => .error ()) 5 (fun _ => rfl) (fun hf => nomatch hf)
  exact ⟨h.1.mpr (Or.inl (by decide)), h.2 (Or.inl (by decide))⟩

/-- C6, counterexample: the claim says the engine refreshes the wallet's
`(account_number, sequence)` pair from the chain before retrying. With
cached wallet `(1, 100)`, a first broadcast failing with the wrong-sequence
marker, and the chain reporting account `(2, 105)`, the wallet after the
refresh is `(1, 105)`: the sequence is taken from the chain but the cached
account number 1 is kept, differing from the chain's 2. -/
theorem call_refresh_keeps_account_number_counterexample :
    (call
        (fun w => if w.sequence = 100 then .error errWrongSequence else .ok {})
        (.ok { accountNumber := 2, sequence := 105 })
        { accountNumber := 1, sequence := 100 }).wallet =
      { accountNumber := 1, sequence := 105 }
    ∧ ({ accountNumber := 1, sequence := 105 } : Wallet).accountNumber ≠
        ({ accountNumber := 2, sequence := 105 } : Wallet).accountNumber := by
  constructor <;> decide

/-- C6, amended: on a broadcast error containing the wrong-sequence marker
the engine refreshes the wallet's sequence from the chain-reported account
info (the cached account number is kept) and retries the broadcast exactly
once, returning the retried broadcast's result; a success or a broadcast
error without the marker involves exactly one broadcast, and such an error
propagates unchanged. -/
theorem call_retries_once_on_wrong_sequence
    (send : Wallet → Except String TxResponse) (acc w : Wallet) :
    (∀ res, send w = .ok res →
        call send (.ok acc) w = { result := .ok res, wallet := w, broadcasts := 1 })
    ∧ (∀ e, send w = .error e → strContains e errWrongSequence = false →
        call send (.ok acc) w = { result := .error e, wallet := w, broadcasts := 1 })
    ∧ (∀ e, send w = .error e → strContains e errWrongSequence = true →
        call send (.ok acc) w =
          { result := send { w with sequence := acc.sequence },
            wallet := { w with sequence := acc.sequence }, broadcasts := 2 }) := by
  refine ⟨fun res hok => ?_, fun e herr hnc => ?_, fun e herr hc => ?_⟩
  · rw [call, hok]
  · rw [call, herr]
    simp [hnc]
  · rw [call, herr]
    simp only [hc, if_pos]
    rfl

/-- C6, witness: a wrong-sequence failure at cached sequence 100 followed by
a successful retry at the chain-reported sequence 105 makes exactly two
broadcast attempts and ends with the wallet at sequence 105. -/
theorem call_retries_once_on_wrong_sequence_witness :
    call (fun w => if w.sequence = 100 then .error errWrongSequence else .ok {})
        (.ok { accountNumber := 1, sequence := 105 })
        { accountNumber := 1, sequence := 100 } =
      { result := .ok {}, wallet := { accountNumber := 1, sequence := 105 },
        broadcasts := 2 } := by
  have h := (call_retries_once_on_wrong_sequence
    (fun w => if w.sequence = 100 then .error errWrongSequence else .ok {})
    { accountNumber := 1, sequence := 105 }
    { accountNumber := 1, sequence := 100 }).2.2
    errWrongSequence (by decide) (by decide)
  rw [h]
  decide

/-- C8: each terminal outcome of the tx-result waiters yields exactly one
message on the channel before it closes. Subscribe strategy: an observed tx
event with OK code yields exactly the one success response carrying the
inclusion height; a non-OK code yields exactly the one failure whose error
is the chain-reported log, alongside the response carrying the failing code.
Poll strategy: as soon as some tick finds the receipt or exceeds the maximum
wait, exactly one message is emitted — the success with the receipt, or the
error once the elapsed time exceeds the maximum wait. -/
theorem tx_result_waiter_exactly_one :
    (∀ (txHash : String) (h : Int) (code : Nat) (cs log data : String),
      (subscribeTxResultStream txHash (.txEvent h code cs log data)).length = 1
      ∧ (code = CodeTypeOK →
          subscribeTxResultStream txHash (.txEvent h code cs log data) =
            [{ txResult := some ⟨h, txHash, cs, code, data, ""⟩, error := none }])
      ∧ (code ≠ CodeTypeOK →
          subscribeTxResultStream txHash (.txEvent h code cs log data) =
            [{ txResult := some ⟨h, txHash, cs, code, data, ""⟩, error := some log }]))
    ∧ (∀ (maxWait : Nat) (ticks : List (Except String TxResponse × Nat)),
        (∃ t ∈ ticks, pollTerminal maxWait t) →
        (pollTxResultStream maxWait ticks).length = 1)
    ∧ (∀ (maxWait n : Nat) (res : TxResponse)
        (rest : List (Except String TxResponse × Nat)),
        pollTxResultStream maxWait ((.ok res, n) :: rest) =
          [{ txResult := some res, error := none }])
    ∧ (∀ (maxWait elapsed : Nat) (e : String)
        (rest : List (Except String TxResponse × Nat)), elapsed > maxWait →
        pollTxResultStream maxWait ((.error e, elapsed) :: rest) =
          [{ txResult := none, error := some e }]) := by
  refine ⟨fun txHash h code cs log data => ?_, fun maxWait ticks => ?_,
    fun maxWait n res rest => ?_, fun maxWait elapsed e rest hgt => ?_⟩
  · by_cases hc : code = CodeTypeOK
    · exact ⟨by simp [subscribeTxResultStream, hc], fun _ => by
        simp [subscribeTxResultStream, hc], fun hn => absurd hc hn⟩
    · exact ⟨by simp [subscribeTxResultStream, hc], fun hcc => absurd hcc hc,
        fun _ => by simp [subscribeTxResultStream, hc]⟩
  · induction ticks with
    | nil =>
      rintro ⟨t, ht, _⟩
      cases ht
    | cons tick rest ih =>
      rintro ⟨t, ht, hterm⟩
      rcases tick with ⟨att, elapsed⟩
      cases att with
      | ok res => simp [pollTxResultStream]
      | error e =>
        by_cases hgt : elapsed > maxWait
        · simp [pollTxResultStream, hgt]
        · rw [pollTxResultStream, if_neg hgt]
          rcases List.mem_cons.mp ht with rfl | hrest
          · rcases hterm with ⟨r, hr⟩ | hel
            · exact Except.noConfusion hr
            · exact absurd hel hgt
          · exact ih ⟨t, hrest, hterm⟩
  · simp [pollTxResultStream]
  · simp [pollTxResultStream, hgt]

/-- C8, witness: a failed receipt query at 2s (within a 5s budget) followed
by a found receipt makes the polling waiter emit exactly one message. -/
theorem tx_result_waiter_exactly_one_witness :
    (pollTxResultStream 5 [(.error "not found", 2), (.ok {}, 3)]).length = 1 :=
  tx_result_waiter_exactly_one.2.1 5 [(.error "not found", 2), (.ok {}, 3)]
    ⟨(.ok {}, 3), by decide, Or.inl ⟨{}, rfl⟩⟩

end Relay



